import Mathlib

/-
Verification of the similarity-search-and-ranking core of the
ai-architectural-search repository.

The development shallowly embeds the Python source:

* `Ranker` models railway-deploy/processors/result_ranker.py and
  railway-deploy/models/search_models.py over exact rationals (the ranker
  performs only field operations, min/max clipping and Jaccard quotients, so
  every float it manipulates is a rational value).
* `QP` models src/processors/query_processor.py over the reals (cosine
  similarity divides by a Euclidean norm, i.e. a square root).  IEEE NaN,
  which the code produces by dividing by a zero norm, is modelled explicitly
  by `Option ℝ` scores: `none` is a NaN score, `some x` a finite score.
* `Store` models railway-deploy/storage/metadata_store.py: the backing file
  is abstracted to parsed / corrupt / missing, and the save path is a
  step-indexed state transformer over a three-slot file system (live file,
  backup file, temporary file) so that crash points can be enumerated.
* `Engine` models railway-deploy/processors/search_engine.py, with the
  external embedding provider and the file-existence probe passed in as
  functions, and the two-path similarity component abstracted as a function
  argument (it is modelled in full in `QP`).
-/

/-- Models python str.strip as used throughout the source: remove leading
and trailing whitespace characters. -/
def strip (s : String) : String :=
  ⟨((s.data.dropWhile Char.isWhitespace).reverse.dropWhile
      Char.isWhitespace).reverse⟩

namespace Ranker

/-- Clamp a rational to the interval from 0 to 1; models np.clip(x, 0.0, 1.0)
in ResultRanker._calculate_confidence_score. -/
def clip01 (x : ℚ) : ℚ := max 0 (min 1 x)

/-- Models ResultRanker._calculate_confidence_score: shift the cosine
similarity from the range -1..1 to 0..1, square it to emphasise higher
values, and clip the result to 0..1. -/
def calculate_confidence_score (s : ℚ) : ℚ :=
  clip01 (((s + 1) / 2) ^ 2)

/-- Models the SearchResult dataclass of
railway-deploy/models/search_models.py. -/
structure SearchResult where
  image_path : String
  confidence_score : ℚ
  description : String
  similarity_score : ℚ
  features : List String
  deriving DecidableEq, Repr

/-- Models constructing a SearchResult, i.e. the dataclass initialiser
followed by SearchResult.post_init validation: an empty image path, a
confidence score outside the range 0..1 or an empty description raise
ValueError; a missing feature list defaults to the empty list.  The static
type checks of the Python code are subsumed by the Lean types. -/
def SearchResult.post_init (image_path : String) (confidence_score : ℚ)
    (description : String) (similarity_score : ℚ)
    (features : Option (List String)) : Except String SearchResult :=
  if image_path = "" then .error "Image path is required"
  else if ¬ (0 ≤ confidence_score ∧ confidence_score ≤ 1) then
    .error "Confidence score must be between 0 and 1"
  else if description = "" then .error "Description is required"
  else .ok ⟨image_path, confidence_score, description, similarity_score,
    features.getD []⟩

/-- Models the ImageMetadata dataclass of
railway-deploy/models/image_metadata.py, restricted to the fields the
search pipeline reads.  Its initialiser requires a non-empty embedding, so
the embedding field is a plain list. -/
structure ImageMetadata where
  path : String
  embedding : List ℚ
  description : String
  features : List String
  deriving DecidableEq, Repr

/-- Models ResultRanker.create_search_results: for each similarity entry,
look the path up in the metadata dictionary (a missing entry is skipped with
a warning), compute the confidence score, and construct a SearchResult; an
entry whose construction raises is skipped with a warning rather than
failing the batch. -/
def create_search_results (similarities : List (String × ℚ))
    (metadata_dict : List (String × ImageMetadata)) : List SearchResult :=
  if similarities = [] then []
  else if metadata_dict = [] then []
  else
    similarities.filterMap (fun ps =>
      match metadata_dict.lookup ps.1 with
      | none => none
      | some metadata =>
        match SearchResult.post_init ps.1
            (calculate_confidence_score ps.2) metadata.description ps.2
            (some metadata.features) with
        | .error _ => none
        | .ok r => some r)

/-- Models the feature-name normalisation f.lower().strip() used by
ResultRanker._calculate_feature_similarity. -/
def normalize_feature (f : String) : String := strip f.toLower

/-- Tag set of a feature list, after normalisation; models
set(f.lower().strip() for f in features). -/
def feature_set (fs : List String) : Finset String :=
  (fs.map normalize_feature).toFinset

/-- Models ResultRanker._calculate_feature_similarity: 0 when either feature
list is empty, otherwise the Jaccard similarity of the normalised tag sets
(0 when the union is empty). -/
def calculate_feature_similarity (result1 result2 : SearchResult) : ℚ :=
  if result1.features = [] ∨ result2.features = [] then 0
  else
    let features1 := feature_set result1.features
    let features2 := feature_set result2.features
    let intersection := (features1 ∩ features2).card
    let union := (features1 ∪ features2).card
    if union = 0 then 0 else (intersection : ℚ) / (union : ℚ)

/-- Models the inner loop of ResultRanker.apply_diversity_filter: a candidate
is diverse when no already-selected result has feature similarity strictly
above the threshold. -/
def is_diverse (threshold : ℚ) (selected : List SearchResult)
    (candidate : SearchResult) : Bool :=
  selected.all (fun s =>
    decide (calculate_feature_similarity candidate s ≤ threshold))

/-- Models ResultRanker.apply_diversity_filter: lists of length at most one
are returned unchanged; otherwise the top result is always kept and each
later candidate, in order, is appended exactly when it is diverse against
every already-kept result. -/
def apply_diversity_filter (results : List SearchResult)
    (diversity_threshold : ℚ) : List SearchResult :=
  if results.length ≤ 1 then results
  else
    match results with
    | [] => []
    | top :: rest =>
      rest.foldl (fun diverse_results candidate =>
        if is_diverse diversity_threshold diverse_results candidate then
          diverse_results ++ [candidate]
        else diverse_results) [top]

/-- Helper for the spec-side diversity filter: processes the remaining
candidates in rank order against the list accepted so far. -/
def diversity_spec_go (threshold : ℚ) (accepted : List SearchResult) :
    List SearchResult → List SearchResult
  | [] => accepted
  | c :: cs =>
    if ∃ a ∈ accepted, threshold < calculate_feature_similarity c a then
      diversity_spec_go threshold accepted cs
    else diversity_spec_go threshold (accepted ++ [c]) cs

/-- Follows the spec words for diversityFilter, for comparison with the code
model: always keep the top-ranked item; for each subsequent candidate in
rank order, compute the Jaccard similarity of tag sets against every
already-accepted item and reject the candidate exactly when some such
similarity exceeds the threshold. -/
def diversity_filter_spec (threshold : ℚ) :
    List SearchResult → List SearchResult
  | [] => []
  | top :: rest => diversity_spec_go threshold [top] rest

/-- Models the fields of the AppConfig dataclass of src/models/config.py
that the search pipeline reads: the default maximum result count and the
default similarity threshold. -/
structure AppConfig where
  max_results : Int
  similarity_threshold : ℚ

/-- Models ResultRanker._rank_by_confidence: python sorted with a
confidence key and reverse=True, i.e. a stable descending sort. -/
def rank_by_confidence (results : List SearchResult) : List SearchResult :=
  results.mergeSort (fun a b =>
    decide (b.confidence_score ≤ a.confidence_score))

/-- Models ResultRanker._rank_by_similarity: stable descending sort by raw
similarity score. -/
def rank_by_similarity (results : List SearchResult) : List SearchResult :=
  results.mergeSort (fun a b =>
    decide (b.similarity_score ≤ a.similarity_score))

/-- Hybrid ranking key of ResultRanker._rank_by_hybrid_score: 0.7 times the
confidence plus 0.3 times the similarity normalised into the range 0..1. -/
def hybrid_score (r : SearchResult) : ℚ :=
  7/10 * r.confidence_score + 3/10 * ((r.similarity_score + 1) / 2)

/-- Models ResultRanker._rank_by_hybrid_score: stable descending sort by the
hybrid score. -/
def rank_by_hybrid_score (results : List SearchResult) : List SearchResult :=
  results.mergeSort (fun a b => decide (hybrid_score b ≤ hybrid_score a))

/-- Models ResultRanker.rank_results: empty input returns empty; a missing
max_results falls back to the configured default; the strategy selects one
of the three sorts, an unknown strategy raising ValueError which the
handler turns into the confidence sort with the same truncation; a positive
limit truncates the sorted list and a non-positive limit means unlimited. -/
def rank_results (cfg : AppConfig) (results : List SearchResult)
    (max_results : Option Int) (ranking_strategy : String) :
    List SearchResult :=
  if results = [] then []
  else
    let mr := max_results.getD cfg.max_results
    let sorted :=
      if ranking_strategy = "similarity" then rank_by_similarity results
      else if ranking_strategy = "hybrid" then rank_by_hybrid_score results
      else rank_by_confidence results
    if 0 < mr then sorted.take mr.toNat else sorted

/-- Models ResultRanker.filter_by_threshold: empty input returns empty; a
missing threshold falls back to the configured default; the threshold type
selects the compared field, an unknown type raising ValueError which the
handler turns into returning the results unfiltered. -/
def filter_by_threshold (cfg : AppConfig) (results : List SearchResult)
    (threshold : Option ℚ) (threshold_type : String) : List SearchResult :=
  if results = [] then []
  else
    let t := threshold.getD cfg.similarity_threshold
    if threshold_type = "confidence" then
      results.filter (fun r => decide (t ≤ r.confidence_score))
    else if threshold_type = "similarity" then
      results.filter (fun r => decide (t ≤ r.similarity_score))
    else results

end Ranker

namespace QP

/-- Clamp a real to the interval from -1 to 1; models
np.clip(x, -1.0, 1.0) in src/processors/query_processor.py. -/
def clip1 (x : ℝ) : ℝ := max (-1) (min 1 x)

/-- Dot product of two real vectors, models np.dot on 1-d arrays. -/
def dot (a b : List ℝ) : ℝ := (List.zipWith (fun x y => x * y) a b).sum

/-- Sum of squares of a vector. -/
def sumSq (v : List ℝ) : ℝ := dot v v

/-- Euclidean norm, models np.linalg.norm on a 1-d array. -/
noncomputable def norm (v : List ℝ) : ℝ := Real.sqrt (sumSq v)

/-- Elementwise division of a vector by its norm; models v / np.linalg.norm(v)
for a vector of nonzero norm (a zero norm makes the float code produce NaN,
which callers below represent explicitly). -/
noncomputable def normalize (v : List ℝ) : List ℝ := v.map (fun x => x / norm v)

open Classical in
/-- Models the per-entry body of QueryProcessor.calculate_similarities:
_calculate_cosine_similarity raises on a shape mismatch, which the caller
catches and turns into skipping the entry (the value none of the outer
Option).  A score of none (the inner Option) is the IEEE NaN that floating
point division by a zero norm produces: with a zero-norm query the
pre-normalised query vector is all-NaN, and with a zero-norm candidate the
candidate normalisation divides by zero; in both cases the dot product and
np.clip propagate NaN.  With nonzero norms the score is
clip1 of the dot product of the two normalised vectors. -/
noncomputable def seq_entry (query_embedding : List ℝ)
    (pc : String × List ℝ) : Option (String × Option ℝ) :=
  if pc.2.length = query_embedding.length then
    some (pc.1,
      if sumSq query_embedding = 0 ∨ sumSq pc.2 = 0 then none
      else some (clip1 (dot (normalize query_embedding) (normalize pc.2))))
  else none

/-- Models QueryProcessor.calculate_similarities: an empty query embedding
raises ValueError; otherwise the query is normalised once and each candidate
is scored with _calculate_cosine_similarity, entries whose scoring raises
being skipped with a warning. -/
noncomputable def calculate_similarities (query_embedding : List ℝ)
    (image_embeddings : List (String × List ℝ)) :
    Except String (List (String × Option ℝ)) :=
  if query_embedding.length = 0 then
    .error "Query embedding cannot be empty"
  else .ok (image_embeddings.filterMap (seq_entry query_embedding))

/-- Models the validity filter at the top of
QueryProcessor.calculate_similarities_vectorized: keep candidates that are
non-empty arrays of the query shape.  The np.isfinite check is vacuous over
the reals, where NaN and infinity do not exist as inputs. -/
def valid_filter (query_embedding : List ℝ)
    (image_embeddings : List (String × List ℝ)) : List (String × List ℝ) :=
  image_embeddings.filter (fun pc =>
    decide (0 < pc.2.length) && decide (pc.2.length = query_embedding.length))

open Classical in
/-- Models one row of the vectorised path of
QueryProcessor.calculate_similarities_vectorized: a zero candidate norm is
replaced by 1 before the elementwise division (so a zero-norm candidate row
becomes the zero vector and scores 0), the row is dotted with the normalised
query, and the result is clipped to the range -1..1.  The np.isfinite and
np.nan_to_num repairs of the source are vacuous here because with nonzero
query norm and this zero-norm substitution no NaN or infinity arises over
the reals. -/
noncomputable def vec_entry (query_embedding : List ℝ)
    (pc : String × List ℝ) : String × Option ℝ :=
  (pc.1, some (clip1 (dot
    (pc.2.map (fun x => x / (if sumSq pc.2 = 0 then 1 else norm pc.2)))
    (normalize query_embedding))))

open Classical in
/-- Models QueryProcessor.calculate_similarities_vectorized: an empty query
embedding raises ValueError; an empty candidate dictionary returns the empty
map; candidates whose length is zero or differs from the query length are
filtered out, and if none survive the empty map is returned; a zero-norm
query raises inside the normalisation block and the outer handler falls back
to calculate_similarities on the original candidate dictionary; otherwise
every surviving candidate is scored on the matrix path. -/
noncomputable def calculate_similarities_vectorized (query_embedding : List ℝ)
    (image_embeddings : List (String × List ℝ)) :
    Except String (List (String × Option ℝ)) :=
  if query_embedding.length = 0 then
    .error "Query embedding cannot be empty"
  else if image_embeddings = [] then .ok []
  else if valid_filter query_embedding image_embeddings = [] then .ok []
  else if sumSq query_embedding = 0 then
    calculate_similarities query_embedding image_embeddings
  else
    .ok ((valid_filter query_embedding image_embeddings).map
      (vec_entry query_embedding))

/-- Scores agreement used by the C3 counterexample: two float scores agree
within tol exactly when both are actual numbers at distance at most tol; a
NaN score (modelled as none) compares false against everything, as in IEEE
arithmetic. -/
def scores_within (tol : ℝ) : Option ℝ → Option ℝ → Prop
  | some x, some y => |x - y| ≤ tol
  | _, _ => False

end QP

namespace Store

/-- Abstraction of the JSON backing file of MetadataStore: the file can be
missing, present but unparsable or of invalid top-level format (corrupt), or
present and parsed into a list of metadata records.  Records that
individually fail to parse are dropped with a warning inside
_load_metadata_from_file, so the parsed view holds only well-formed
records. -/
inductive BackingFile where
  | missing
  | corrupt
  | parsed (images : List Ranker.ImageMetadata)

/-- Models MetadataStore._load_metadata_from_file: a missing file yields the
empty dictionary with only an info log; an unparsable or ill-formed file
raises ValueError about a corrupted metadata file; a parsed file yields the
dictionary keyed by each record's path. -/
def load_metadata_from_file :
    BackingFile → Except String (List (String × Ranker.ImageMetadata))
  | .missing => .ok []
  | .corrupt => .error "Corrupted metadata file"
  | .parsed images => .ok (images.map (fun m => (m.path, m)))

/-- In-memory state of MetadataStore: the metadata cache, whether it has
been loaded, and the backing-file modification time recorded at the last
successful refresh. -/
structure StoreState where
  metadata_cache : List (String × Ranker.ImageMetadata)
  cache_loaded : Bool
  last_modified : Option Nat
  deriving DecidableEq, Repr

/-- Models MetadataStore._refresh_cache_if_needed, with the backing file and
its current modification time passed explicitly: a missing file clears a
loaded cache; otherwise, when the cache is unloaded or the recorded mtime
differs from the current one, the file is reloaded — and any exception,
including the corruption ValueError of _load_metadata_from_file, is caught
and logged as a warning, leaving the previous cache state in place. -/
def refresh_cache_if_needed (file : BackingFile) (mtime : Nat)
    (st : StoreState) : StoreState :=
  match file with
  | .missing =>
    if st.cache_loaded then
      { st with metadata_cache := [], cache_loaded := false }
    else st
  | _ =>
    if ¬ st.cache_loaded ∨ st.last_modified ≠ some mtime then
      match load_metadata_from_file file with
      | .ok m =>
        { metadata_cache := m, cache_loaded := true,
          last_modified := some mtime }
      | .error _ => st
    else st

/-- Models MetadataStore.load_all_metadata: refresh the cache if needed and
return a copy of it together with the updated store state; the signature has
no error outcome because the refresh step swallows every load failure. -/
def load_all_metadata (file : BackingFile) (mtime : Nat) (st : StoreState) :
    List (String × Ranker.ImageMetadata) × StoreState :=
  let st2 := refresh_cache_if_needed file mtime st
  (st2.metadata_cache, st2)

/-- State of a freshly constructed MetadataStore: empty cache, nothing
loaded, no recorded modification time. -/
def fresh_store : StoreState :=
  { metadata_cache := [], cache_loaded := false, last_modified := none }

/-- A snapshot of the three file-system slots touched by
MetadataStore._save_metadata_to_file: the live metadata file, the
.json.backup slot and the .json.tmp slot.  A slot holds the serialised
metadata dictionary it contains, or none when no file exists there. -/
structure FileSys where
  live : Option (List (String × Ranker.ImageMetadata))
  backup : Option (List (String × Ranker.ImageMetadata))
  tmp : Option (List (String × Ranker.ImageMetadata))
  deriving DecidableEq, Repr

/-- Failure points of _save_metadata_to_file: the save can raise at the
backup rename (live file not yet touched), during the temporary-file write
(after the live file was renamed into the backup slot), or at the final
atomic rename (temporary file fully written); the ok point means no step
failed.  On any failure the except block unlinks the temporary file and
re-raises ValueError. -/
inductive SavePoint where
  | ok
  | atBackup
  | atWrite
  | atRename
  deriving DecidableEq, Repr

/-- Models _save_metadata_to_file as a state transformer over the three file
slots, returning the resulting file system and whether the save succeeded:
when a live file exists it is renamed over the backup slot (Path.replace, a
move, not a copy); the new serialised content is written to the temporary
file; the temporary file is atomically renamed over the live path.  A
failure at any point unlinks the temporary file and reports the error. -/
def save_metadata_to_file (fs : FileSys)
    (content : List (String × Ranker.ImageMetadata)) (fail : SavePoint) :
    FileSys × Bool :=
  match fail with
  | .atBackup => ({ fs with tmp := none }, false)
  | _ =>
    let fs1 := match fs.live with
      | some prior => { fs with live := none, backup := some prior }
      | none => fs
    match fail with
    | .atWrite => ({ fs1 with tmp := none }, false)
    | .atRename => ({ fs1 with tmp := none }, false)
    | _ => ({ fs1 with live := some content, tmp := none }, true)

/-- Concrete metadata record used by the store theorems below. -/
def sample_record : Ranker.ImageMetadata := ⟨"old.jpg", [1], "old", []⟩

/-- Concrete file system with one committed live file and empty backup and
temporary slots, used by the store theorems below. -/
def sample_fs : FileSys := ⟨some [("old.jpg", sample_record)], none, none⟩

end Store

namespace Engine

/-- Models the Query dataclass of railway-deploy/models/search_models.py,
restricted to the fields the search path writes: the original text, the
embedding produced for the normalised text, and the result count filled in
before returning.  Its validations hold by construction on this path: the
text was already checked non-empty and the count set to a list length. -/
structure Query where
  text : String
  embedding : List ℚ
  results_count : Option Int
  deriving DecidableEq, Repr

/-- Models the mutable caches of SearchEngine together with the store
contents they are refreshed from: the backing store dictionary (the result
of MetadataStore.load_all_metadata), the embedding cache, the metadata
cache, and whether the cache TTL has expired (the wall-clock comparison
against the 30-minute TTL, which cannot be computed inside the model, is
carried as a boolean). -/
structure EngineState where
  store : List (String × Ranker.ImageMetadata)
  embedding_cache : List (String × List ℚ)
  metadata_cache : List (String × Ranker.ImageMetadata)
  cache_expired : Bool
  deriving DecidableEq, Repr

/-- Models SearchEngine._refresh_caches: rebuild both caches from the store
dictionary and reset the TTL clock.  The is-not-None embedding check of the
source is vacuous because the ImageMetadata initialiser rejects a missing
embedding, so every record is carried over. -/
def refresh_caches (st : EngineState) : EngineState :=
  { st with
    embedding_cache := st.store.map (fun pm => (pm.1, pm.2.embedding)),
    metadata_cache := st.store,
    cache_expired := false }

/-- Models SearchEngine._refresh_caches_if_needed: refresh when either cache
is empty or the TTL has expired. -/
def refresh_caches_if_needed (st : EngineState) : EngineState :=
  if st.embedding_cache = [] ∨ st.metadata_cache = [] ∨ st.cache_expired then
    refresh_caches st
  else st

/-- Models SearchEngine._get_cached_embeddings: a non-empty embedding cache
is returned as is (a cache hit); an empty one triggers one more refresh
before returning (a cache miss). -/
def get_cached_embeddings (st : EngineState) :
    List (String × List ℚ) × EngineState :=
  if st.embedding_cache = [] then
    let st2 := refresh_caches st
    (st2.embedding_cache, st2)
  else (st.embedding_cache, st)

/-- Models SearchEngine._validate_search_result, with the file-existence
probe passed in as a function: the image file must exist, the confidence
must lie in the range 0..1, the similarity in the range -1..1, and the
description must be non-empty and not whitespace-only. -/
def validate_search_result (file_exists : String → Bool)
    (r : Ranker.SearchResult) : Bool :=
  file_exists r.image_path &&
  decide (0 ≤ r.confidence_score ∧ r.confidence_score ≤ 1) &&
  decide (-1 ≤ r.similarity_score ∧ r.similarity_score ≤ 1) &&
  decide (¬ (r.description = "" ∨ strip r.description = ""))

/-- Models QueryProcessor._validate_and_normalize_query (the railway copy of
query_processor.py is imported by the search engine; the model follows the
src copy of the file): empty or whitespace-only text and text shorter than
two characters after trimming raise ValueError; text longer than 200
characters is truncated, not rejected. -/
def validate_and_normalize_query (query_text : String) :
    Except String String :=
  if query_text = "" then .error "Query cannot be empty"
  else
    let normalized := strip query_text
    if normalized = "" then .error "Query cannot be empty or whitespace only"
    else if normalized.length < 2 then
      .error "Query must be at least 2 characters long"
    else if 200 < normalized.length then .ok (normalized.take 200)
    else .ok normalized

/-- Models QueryProcessor.process_query, with the external CLIP text encoder
passed in as a function: validate and normalise the text, embed the
normalised text, and build the Query object carrying the original text.
Statistics updates are not modelled. -/
def process_query (embed : String → List ℚ) (query_text : String) :
    Except String Query :=
  match validate_and_normalize_query query_text with
  | .error e => .error e
  | .ok normalized =>
    .ok { text := query_text, embedding := embed normalized,
          results_count := none }

/-- Models SearchEngine.search, with the embedding provider, the similarity
matcher and the file-existence probe passed in as functions.  The matcher
argument abstracts the try-vectorised-then-fall-back-to-sequential pair of
QueryProcessor (modelled in full in the QP namespace); a matcher error
propagates out of both attempts and fails the search.  The steps follow the
source: validate the inputs, process the query, refresh the caches if
needed, fetch the cached embeddings and return the empty result list with
the query when none exist, score the candidates, build the results, filter
by the similarity threshold, rank, optionally apply the diversity filter
with its default threshold 0.8, validate each surviving result, and return
the validated results with the updated query. -/
def search (cfg : Ranker.AppConfig) (embed : String → List ℚ)
    (matcher : List ℚ → List (String × List ℚ) →
      Except String (List (String × ℚ)))
    (file_exists : String → Bool) (st : EngineState) (query_text : String)
    (max_results : Option Int) (similarity_threshold : Option ℚ)
    (ranking_strategy : String) (apply_diversity : Bool) :
    Except String (List Ranker.SearchResult × Query) :=
  if strip query_text = "" then
    .error "Query text cannot be empty"
  else if max_results.any (fun m => decide (m ≤ 0)) then
    .error "max_results must be positive"
  else if similarity_threshold.any (fun t =>
      decide (¬ (0 ≤ t ∧ t ≤ 1))) then
    .error "similarity_threshold must be between 0 and 1"
  else
    match process_query embed query_text with
    | .error e => .error ("Failed to process query: " ++ e)
    | .ok query =>
      let st1 := refresh_caches_if_needed st
      let pair := get_cached_embeddings st1
      if pair.1 = [] then
        .ok ([], { query with results_count := some 0 })
      else
        match matcher query.embedding pair.1 with
        | .error e => .error ("Search operation failed: " ++ e)
        | .ok similarities =>
          let results0 :=
            Ranker.create_search_results similarities pair.2.metadata_cache
          let results1 := Ranker.filter_by_threshold cfg results0
            (some (similarity_threshold.getD cfg.similarity_threshold))
            "similarity"
          let results2 :=
            Ranker.rank_results cfg results1 max_results ranking_strategy
          let results3 :=
            if apply_diversity then
              Ranker.apply_diversity_filter results2 (8/10)
            else results2
          let validated :=
            results3.filter (validate_search_result file_exists)
          .ok (validated,
            { query with results_count := some (validated.length : Int) })

end Engine

namespace Ranker

theorem clip01_nonneg (x : ℚ) : 0 ≤ clip01 x := le_max_left 0 _

theorem clip01_le_one (x : ℚ) : clip01 x ≤ 1 := by
  unfold clip01
  rcases le_total x 1 with h | h
  · simp [min_eq_right h, h]
  · simp [min_eq_left h]

theorem clip01_of_mem (x : ℚ) (h0 : 0 ≤ x) (h1 : x ≤ 1) : clip01 x = x := by
  unfold clip01
  rw [min_eq_right h1, max_eq_right h0]

theorem clip01_mono {x y : ℚ} (h : x ≤ y) : clip01 x ≤ clip01 y :=
  max_le_max le_rfl (min_le_min le_rfl h)

/-- C6: on inputs in the range -1..1 the confidence function returns exactly
the square of (s + 1) / 2, and on every rational input the returned
confidence is clamped into the range 0..1. -/
theorem confidence_formula_and_bounds (s : ℚ) :
    ((-1 ≤ s → s ≤ 1 → calculate_confidence_score s = ((s + 1) / 2) ^ 2) ∧
      0 ≤ calculate_confidence_score s ∧ calculate_confidence_score s ≤ 1) := by
  refine ⟨fun hlo hhi => ?_, clip01_nonneg _, clip01_le_one _⟩
  apply clip01_of_mem
  · positivity
  · nlinarith [sq_nonneg (s + 1), sq_nonneg (s - 1)]

/-- Witness for C6: the confidence of similarity 1/2 equals 9/16 and lies in
the range 0..1. -/
theorem confidence_formula_and_bounds_witness :
    calculate_confidence_score (1 / 2 : ℚ) = (((1 / 2 : ℚ) + 1) / 2) ^ 2 ∧
      0 ≤ calculate_confidence_score (1 / 2 : ℚ) ∧
      calculate_confidence_score (1 / 2 : ℚ) ≤ 1 := by
  have h := confidence_formula_and_bounds (1 / 2 : ℚ)
  exact ⟨h.1 (by norm_num) (by norm_num), h.2⟩

/-- C7: the confidence function is monotone non-decreasing on the similarity
range -1..1. -/
theorem confidence_monotone {s1 s2 : ℚ} (h1 : -1 ≤ s1) (h12 : s1 < s2)
    (h2 : s2 ≤ 1) :
    calculate_confidence_score s1 ≤ calculate_confidence_score s2 := by
  unfold calculate_confidence_score
  apply clip01_mono
  nlinarith

/-- Witness for C7: confidence at similarity 0 is at most confidence at
similarity 1/2. -/
theorem confidence_monotone_witness :
    calculate_confidence_score (0 : ℚ) ≤ calculate_confidence_score (1 / 2 : ℚ) :=
  confidence_monotone (by norm_num) (by norm_num) (by norm_num)

/-- C10: a successfully constructed SearchResult has a confidence score in
the range 0..1 and a non-empty description; the constructor rejects
violating inputs with an error; and every result produced by
create_search_results (which silently skips entries with missing metadata or
failed construction instead of raising) satisfies the invariant. -/
theorem search_result_invariant :
    (∀ p c d s f r, SearchResult.post_init p c d s f = .ok r →
        0 ≤ r.confidence_score ∧ r.confidence_score ≤ 1 ∧
          r.description ≠ "") ∧
    (∀ p c d s f, ¬ (0 ≤ c ∧ c ≤ 1) ∨ d = "" →
        ∃ e, SearchResult.post_init p c d s f = .error e) ∧
    (∀ sims md r, r ∈ create_search_results sims md →
        0 ≤ r.confidence_score ∧ r.confidence_score ≤ 1 ∧
          r.description ≠ "") := by
  have hmk : ∀ (p : String) (c : ℚ) (d : String) (s : ℚ)
      (f : Option (List String)) (r : SearchResult),
      SearchResult.post_init p c d s f = .ok r →
      0 ≤ r.confidence_score ∧ r.confidence_score ≤ 1 ∧ r.description ≠ "" := by
    intro p c d s f r h
    unfold SearchResult.post_init at h
    split at h
    · exact absurd h (by simp)
    · split at h
      · exact absurd h (by simp)
      · split at h
        · exact absurd h (by simp)
        · rename_i hp hc hd
          rw [not_not] at hc
          injection h with h
          subst h
          exact ⟨hc.1, hc.2, hd⟩
  refine ⟨hmk, ?_, ?_⟩
  · intro p c d s f hbad
    unfold SearchResult.post_init
    by_cases hp : p = ""
    · exact ⟨"Image path is required", by simp [hp]⟩
    · by_cases hc : 0 ≤ c ∧ c ≤ 1
      · have hd : d = "" := hbad.resolve_left (not_not_intro hc)
        exact ⟨"Description is required", by simp [hp, hc.1, hc.2, hd]⟩
      · exact ⟨"Confidence score must be between 0 and 1", by simp [hp, hc]⟩
  · intro sims md r hr
    unfold create_search_results at hr
    split at hr
    · exact absurd hr (by simp)
    · split at hr
      · exact absurd hr (by simp)
      · rw [List.mem_filterMap] at hr
        obtain ⟨ps, _, hps⟩ := hr
        revert hps
        rcases hlk : md.lookup ps.1 with _ | metadata
        · intro hps
          exact absurd hps (by simp)
        · intro hps
          have hps2 : (match SearchResult.post_init ps.1
              (calculate_confidence_score ps.2) metadata.description ps.2
              (some metadata.features) with
            | Except.error _ => none
            | Except.ok r1 => some r1) = some r := hps
          clear hps
          revert hps2
          rcases hpi : SearchResult.post_init ps.1
              (calculate_confidence_score ps.2) metadata.description ps.2
              (some metadata.features) with e | r0
          · intro hps2
            exact absurd hps2 (by simp)
          · intro hps2
            have hr0 : r0 = r := by simpa using hps2
            subst hr0
            exact hmk _ _ _ _ _ _ hpi

/-- Witness for C10: on a concrete similarity map with one scorable entry,
one entry with missing metadata and one entry whose metadata has an empty
description, the produced result satisfies the invariant. -/
theorem search_result_invariant_witness :
    (SearchResult.post_init "a.jpg" (9/16 : ℚ) "a house" (1/2 : ℚ)
        (some ["arch"]) =
      .ok ⟨"a.jpg", 9/16, "a house", 1/2, ["arch"]⟩) ∧
    (⟨"a.jpg", 9/16, "a house", 1/2, ["arch"]⟩ : SearchResult) ∈
      create_search_results
        [("a.jpg", 1/2), ("missing.jpg", 1/2), ("bad.jpg", 1/2)]
        [("a.jpg", ⟨"a.jpg", [1], "a house", ["arch"]⟩),
         ("bad.jpg", ⟨"bad.jpg", [1], "", []⟩)] ∧
    (0 ≤ (9/16 : ℚ) ∧ (9/16 : ℚ) ≤ 1 ∧ ("a house" : String) ≠ "") := by
  have hmem : (⟨"a.jpg", 9/16, "a house", 1/2, ["arch"]⟩ : SearchResult) ∈
      create_search_results
        [("a.jpg", 1/2), ("missing.jpg", 1/2), ("bad.jpg", 1/2)]
        [("a.jpg", ⟨"a.jpg", [1], "a house", ["arch"]⟩),
         ("bad.jpg", ⟨"bad.jpg", [1], "", []⟩)] := by
    norm_num +decide [create_search_results, SearchResult.post_init,
      calculate_confidence_score, clip01, List.lookup, List.filterMap]
  refine ⟨by norm_num +decide [SearchResult.post_init], hmem, ?_⟩
  exact search_result_invariant.2.2 _ _ _ hmem

theorem is_diverse_iff (t : ℚ) (acc : List SearchResult) (c : SearchResult) :
    is_diverse t acc c = true ↔
      ¬ ∃ a ∈ acc, t < calculate_feature_similarity c a := by
  simp [is_diverse, not_lt]

theorem diversity_spec_go_foldl (t : ℚ) (cs : List SearchResult) :
    ∀ acc, diversity_spec_go t acc cs =
      cs.foldl (fun diverse_results candidate =>
        if is_diverse t diverse_results candidate then
          diverse_results ++ [candidate]
        else diverse_results) acc := by
  induction cs with
  | nil => intro acc; rfl
  | cons c cs ih =>
    intro acc
    rw [diversity_spec_go, List.foldl_cons]
    by_cases hex : ∃ a ∈ acc, t < calculate_feature_similarity c a
    · have hdiv : is_diverse t acc c = false := by
        rw [Bool.eq_false_iff, Ne, is_diverse_iff, not_not]
        exact hex
      rw [if_pos hex, if_neg (by rw [hdiv]; simp), ih]
    · have hdiv : is_diverse t acc c = true := (is_diverse_iff t acc c).2 hex
      rw [if_neg hex, if_pos (by rw [hdiv]), ih]

theorem foldl_append_extends (t : ℚ) (cs : List SearchResult) :
    ∀ acc, ∃ added, cs.foldl (fun diverse_results candidate =>
        if is_diverse t diverse_results candidate then
          diverse_results ++ [candidate]
        else diverse_results) acc = acc ++ added := by
  induction cs with
  | nil => exact fun acc => ⟨[], by simp⟩
  | cons c cs ih =>
    intro acc
    rw [List.foldl_cons]
    by_cases h : is_diverse t acc c = true
    · obtain ⟨added, hadd⟩ := ih (acc ++ [c])
      exact ⟨[c] ++ added, by rw [if_pos h, hadd, List.append_assoc]⟩
    · obtain ⟨added, hadd⟩ := ih acc
      exact ⟨added, by rw [if_neg h, hadd]⟩

/-- C8: on every non-empty pre-ranked input, the diversity filter of the code
agrees with the spec-side greedy filter (keep the top item; reject a later
candidate exactly when its Jaccard tag-set similarity with some
already-accepted item exceeds the threshold, candidates considered in rank
order), and in particular the top-ranked item stays first. -/
theorem apply_diversity_filter_correct (results : List SearchResult)
    (threshold : ℚ) (h : results ≠ []) :
    apply_diversity_filter results threshold =
      diversity_filter_spec threshold results ∧
    (apply_diversity_filter results threshold).head? = results.head? := by
  obtain ⟨top, rest, rfl⟩ := List.exists_cons_of_ne_nil h
  have hspec : diversity_filter_spec threshold (top :: rest) =
      diversity_spec_go threshold [top] rest := rfl
  have heq : apply_diversity_filter (top :: rest) threshold =
      diversity_filter_spec threshold (top :: rest) := by
    rw [hspec, diversity_spec_go_foldl]
    unfold apply_diversity_filter
    split
    · rename_i hlen
      match rest, hlen with
      | [], _ => rfl
    · rfl
  refine ⟨heq, ?_⟩
  rw [heq, hspec, diversity_spec_go_foldl]
  obtain ⟨added, hadd⟩ := foldl_append_extends threshold rest [top]
  rw [hadd]
  rfl

/-- Witness for C8: the diversity filter on a concrete three-element list
agrees with the spec-side filter and keeps the top item first. -/
theorem apply_diversity_filter_correct_witness :
    (([⟨"a", 1, "a", 1, ["arch", "dome"]⟩,
       ⟨"b", 1, "b", 1, ["arch", "dome"]⟩,
       ⟨"c", 1, "c", 1, ["tower"]⟩] : List SearchResult) ≠ []) ∧
    (apply_diversity_filter
        [⟨"a", 1, "a", 1, ["arch", "dome"]⟩,
         ⟨"b", 1, "b", 1, ["arch", "dome"]⟩,
         ⟨"c", 1, "c", 1, ["tower"]⟩] (1/2) =
      diversity_filter_spec (1/2)
        [⟨"a", 1, "a", 1, ["arch", "dome"]⟩,
         ⟨"b", 1, "b", 1, ["arch", "dome"]⟩,
         ⟨"c", 1, "c", 1, ["tower"]⟩] ∧
     (apply_diversity_filter
        [⟨"a", 1, "a", 1, ["arch", "dome"]⟩,
         ⟨"b", 1, "b", 1, ["arch", "dome"]⟩,
         ⟨"c", 1, "c", 1, ["tower"]⟩] (1/2)).head? =
      some ⟨"a", 1, "a", 1, ["arch", "dome"]⟩) :=
  ⟨by simp, apply_diversity_filter_correct _ _ (by simp)⟩

end Ranker

namespace QP

theorem dot_comm (a b : List ℝ) : dot a b = dot b a := by
  unfold dot
  rw [List.zipWith_comm_of_comm]
  intro x y
  ring

theorem seq_entry_eq_vec_entry (q : List ℝ) (pc : String × List ℝ)
    (hqn : sumSq q ≠ 0) (hlen : pc.2.length = q.length)
    (hcn : sumSq pc.2 ≠ 0) :
    seq_entry q pc = some (vec_entry q pc) := by
  unfold seq_entry vec_entry
  rw [if_pos hlen, if_neg hcn, if_neg (by push_neg; exact ⟨hqn, hcn⟩),
    dot_comm]
  rfl

theorem filterMap_seq_eq_map_vec (q : List ℝ) (hqn : sumSq q ≠ 0) :
    ∀ l : List (String × List ℝ),
      (∀ pc ∈ l, (pc : String × List ℝ).2.length = q.length ∧
        sumSq pc.2 ≠ 0) →
      l.filterMap (seq_entry q) = l.map (vec_entry q) := by
  intro l
  induction l with
  | nil => intro _; rfl
  | cons pc cs ih =>
    intro hl
    rw [List.filterMap_cons,
      seq_entry_eq_vec_entry q pc hqn (hl pc (by simp)).1 (hl pc (by simp)).2]
    show vec_entry q pc :: cs.filterMap (seq_entry q) = _
    rw [List.map_cons, ih (fun x hx => hl x (List.mem_cons_of_mem pc hx))]

theorem valid_filter_eq_self (q : List ℝ) (cands : List (String × List ℝ))
    (hq : 0 < q.length)
    (hc : ∀ pc ∈ cands, (pc : String × List ℝ).2.length = q.length) :
    valid_filter q cands = cands := by
  unfold valid_filter
  apply List.filter_eq_self.mpr
  intro pc hpc
  have h1 := hc pc hpc
  simp [h1]
  omega

/-- C3 amended: when the query has positive length and nonzero norm and
every candidate has the query shape and nonzero norm, the batched and the
sequential similarity computations return literally the same id-to-score
map (so every score agrees within any tolerance, in particular 1e-5). -/
theorem batch_seq_equivalence (q : List ℝ) (cands : List (String × List ℝ))
    (hq : 0 < q.length) (hqn : sumSq q ≠ 0)
    (hc : ∀ pc ∈ cands, (pc : String × List ℝ).2.length = q.length ∧
      sumSq pc.2 ≠ 0) :
    calculate_similarities_vectorized q cands = calculate_similarities q cands := by
  have hq0 : ¬ q.length = 0 := by omega
  unfold calculate_similarities_vectorized calculate_similarities
  rw [if_neg hq0, if_neg hq0]
  by_cases hnil : cands = []
  · subst hnil
    simp
  · rw [if_neg hnil,
      valid_filter_eq_self q cands hq (fun pc hpc => (hc pc hpc).1),
      if_neg hnil, if_neg hqn,
      filterMap_seq_eq_map_vec q hqn cands hc]

/-- Witness for the amended C3 theorem: at a concrete nonzero query and
candidate set, the two paths agree. -/
theorem batch_seq_equivalence_witness :
    (0 < ([1, 0] : List ℝ).length ∧ sumSq ([1, 0] : List ℝ) ≠ 0 ∧
      (∀ pc ∈ [("a", [0, 1]), ("b", [1, 1])],
        (pc : String × List ℝ).2.length = ([1, 0] : List ℝ).length ∧
          sumSq pc.2 ≠ 0)) ∧
    calculate_similarities_vectorized [1, 0] [("a", [0, 1]), ("b", [1, 1])] =
      calculate_similarities [1, 0] [("a", [0, 1]), ("b", [1, 1])] := by
  have h1 : (0:ℝ) < 1 := one_pos
  have hss : sumSq ([1, 0] : List ℝ) = 1 := by
    simp [sumSq, dot]
  have hc : ∀ pc ∈ [(("a" : String), ([0, 1] : List ℝ)), ("b", [1, 1])],
      (pc : String × List ℝ).2.length = ([1, 0] : List ℝ).length ∧
        sumSq pc.2 ≠ 0 := by
    intro pc hpc
    simp only [List.mem_cons, List.not_mem_nil, or_false] at hpc
    rcases hpc with h | h <;> subst h
    · exact ⟨rfl, by norm_num [sumSq, dot]⟩
    · exact ⟨rfl, by norm_num [sumSq, dot]⟩
  refine ⟨⟨by norm_num, by rw [hss]; norm_num, hc⟩, ?_⟩
  exact batch_seq_equivalence _ _ (by norm_num) (by rw [hss]; norm_num) hc

/-- C3 counterexample: for the query vector with single component 1 and one
zero-norm candidate, the batched path scores the candidate 0 while the
sequential path scores it NaN, so the two id-to-score maps do not agree
within the 1e-5 tolerance. -/
theorem batch_seq_zero_norm_counterexample :
    calculate_similarities_vectorized [1] [("a", [0])] = .ok [("a", some 0)] ∧
    calculate_similarities [1] [("a", [0])] = .ok [("a", none)] ∧
    ¬ scores_within (1 / 100000) (some 0) none := by
  refine ⟨?_, ?_, by simp [scores_within]⟩
  · unfold calculate_similarities_vectorized
    rw [if_neg (by simp), if_neg (by simp)]
    have hvf : valid_filter [1] [("a", [0])] = [("a", [0])] := rfl
    rw [hvf, if_neg (by simp), if_neg (by simp [sumSq, dot])]
    unfold vec_entry normalize norm
    simp [sumSq, dot, clip1]
  · unfold calculate_similarities
    rw [if_neg (by simp)]
    unfold seq_entry
    simp [sumSq, dot]

/-- C4: for the query vector (1, 0) and the single zero-norm candidate
(0, 0), the sequential path divides by the zero norm and propagates the
resulting NaN into the returned score (the score is none, not 0), while the
batched path substitutes norm 1 and scores the candidate exactly 0.  This
contradicts the claim that both paths assign such a candidate similarity 0
with no NaN produced. -/
theorem zero_norm_candidate_divergence :
    calculate_similarities [1, 0] [("z", [0, 0])] = .ok [("z", none)] ∧
    calculate_similarities_vectorized [1, 0] [("z", [0, 0])] =
      .ok [("z", some 0)] := by
  constructor
  · unfold calculate_similarities
    rw [if_neg (by simp)]
    unfold seq_entry
    simp [sumSq, dot]
  · unfold calculate_similarities_vectorized
    rw [if_neg (by simp), if_neg (by simp)]
    have hvf : valid_filter [1, 0] [("z", [0, 0])] = [("z", [0, 0])] := rfl
    rw [hvf, if_neg (by simp), if_neg (by norm_num [sumSq, dot])]
    unfold vec_entry normalize norm
    simp [sumSq, dot, clip1]

theorem seq_keys (q : List ℝ) (l : List (String × List ℝ)) :
    (l.filterMap (seq_entry q)).map Prod.fst =
      (l.filter (fun pc => decide (pc.2.length = q.length))).map Prod.fst := by
  induction l with
  | nil => rfl
  | cons pc cs ih =>
    by_cases hlen : pc.2.length = q.length
    · simp [List.filterMap_cons, List.filter_cons, seq_entry, hlen, ih]
    · simp [List.filterMap_cons, List.filter_cons, seq_entry, hlen, ih]

/-- C5: for every query of positive length, neither similarity path aborts
the batch: both return a result map whose keys are, in order, exactly the
candidates whose vector length equals the query length — mismatched
candidates are excluded from the returned map and every well-shaped
candidate is scored and returned. -/
theorem mismatched_candidates_skipped (q : List ℝ)
    (cands : List (String × List ℝ)) (hq : 0 < q.length) :
    ∃ mv ms,
      calculate_similarities_vectorized q cands = .ok mv ∧
      calculate_similarities q cands = .ok ms ∧
      mv.map Prod.fst =
        (cands.filter (fun pc =>
          decide (pc.2.length = q.length))).map Prod.fst ∧
      ms.map Prod.fst =
        (cands.filter (fun pc =>
          decide (pc.2.length = q.length))).map Prod.fst := by
  have hq0 : ¬ q.length = 0 := by omega
  have hvf : valid_filter q cands =
      cands.filter (fun pc => decide (pc.2.length = q.length)) := by
    unfold valid_filter
    apply List.filter_congr
    intro pc hpc
    by_cases hlen : pc.2.length = q.length
    · simp [hlen]
      omega
    · simp [hlen]
  have hseq : calculate_similarities q cands =
      .ok (cands.filterMap (seq_entry q)) := by
    unfold calculate_similarities
    rw [if_neg hq0]
  by_cases hnil : cands = []
  · subst hnil
    have hv : calculate_similarities_vectorized q [] = .ok [] := by
      unfold calculate_similarities_vectorized
      rw [if_neg hq0, if_pos rfl]
    exact ⟨[], [], hv, hseq, rfl, rfl⟩
  · unfold calculate_similarities_vectorized
    rw [if_neg hq0, if_neg hnil, hvf]
    by_cases hfe : cands.filter (fun pc => decide (pc.2.length = q.length)) = []
    · rw [if_pos hfe]
      refine ⟨[], cands.filterMap (seq_entry q), rfl, hseq, by simp [hfe], ?_⟩
      rw [seq_keys, hfe]
    · rw [if_neg hfe]
      by_cases hqz : sumSq q = 0
      · rw [if_pos hqz]
        exact ⟨cands.filterMap (seq_entry q), cands.filterMap (seq_entry q),
          hseq, hseq, seq_keys q cands, seq_keys q cands⟩
      · rw [if_neg hqz]
        refine ⟨_, _, rfl, hseq, ?_, seq_keys q cands⟩
        rw [List.map_map]
        rfl

/-- Witness for C5: a length-4 query against one length-3 candidate and one
length-4 candidate; the mismatched candidate is excluded and the well-shaped
one is scored by both paths. -/
theorem mismatched_candidates_skipped_witness :
    0 < ([1, 0, 0, 0] : List ℝ).length ∧
    (∃ mv ms,
      calculate_similarities_vectorized [1, 0, 0, 0]
          [("short", [1, 0, 0]), ("ok", [0, 1, 0, 0])] = .ok mv ∧
      calculate_similarities [1, 0, 0, 0]
          [("short", [1, 0, 0]), ("ok", [0, 1, 0, 0])] = .ok ms ∧
      mv.map Prod.fst =
        (([("short", [1, 0, 0]), ("ok", [0, 1, 0, 0])] :
            List (String × List ℝ)).filter (fun pc =>
          decide (pc.2.length = ([1, 0, 0, 0] : List ℝ).length))).map
            Prod.fst ∧
      ms.map Prod.fst =
        (([("short", [1, 0, 0]), ("ok", [0, 1, 0, 0])] :
            List (String × List ℝ)).filter (fun pc =>
          decide (pc.2.length = ([1, 0, 0, 0] : List ℝ).length))).map
            Prod.fst) :=
  ⟨by norm_num, mismatched_candidates_skipped _ _ (by norm_num)⟩

end QP

namespace Store

/-- C1: on a fresh store with a corrupt backing file,
_load_metadata_from_file does raise the typed corruption error, but
_refresh_cache_if_needed catches and swallows it, so load_all_metadata
returns the empty dictionary with no error — indistinguishable from an
empty index — contradicting the claim that no read of the store returns an
empty result set without surfacing the corruption error to the caller. -/
theorem corrupt_file_swallowed :
    load_metadata_from_file .corrupt = .error "Corrupted metadata file" ∧
    load_all_metadata .corrupt 0 fresh_store = ([], fresh_store) :=
  ⟨rfl, rfl⟩

/-- C2 counterexample: starting from a committed live file, a failure during
the temporary-file write leaves no file at all at the live path — the prior
content survives only in the backup slot — refuting the claim that every
failed save leaves the previously-committed file intact and visible at the
live path. -/
theorem save_failure_live_missing :
    save_metadata_to_file sample_fs [] .atWrite =
      (⟨none, some [("old.jpg", sample_record)], none⟩, false) := rfl

/-- C2 amended: the new content is written to a temporary file and renamed
over the live path, and before each overwrite the prior live file is
preserved by renaming it (not copying it) into the backup slot; hence a
successful save leaves the new content at the live path with the prior
content at the backup path, while a failed save always leaves the prior
content intact at the live path or at the backup path — but a failure after
the backup rename leaves the live path with no file at all. -/
theorem save_backup_preserves (fs : FileSys)
    (content prior : List (String × Ranker.ImageMetadata)) (fail : SavePoint)
    (hprior : fs.live = some prior) :
    ((save_metadata_to_file fs content fail).2 = true →
      (save_metadata_to_file fs content fail).1.live = some content ∧
      (save_metadata_to_file fs content fail).1.backup = some prior) ∧
    ((save_metadata_to_file fs content fail).2 = false →
      (save_metadata_to_file fs content fail).1.live = some prior ∨
      (save_metadata_to_file fs content fail).1.backup = some prior) := by
  cases fail <;> simp [save_metadata_to_file, hprior]

/-- Witness for the amended C2 theorem: a failure at the final rename on a
concrete committed file reports failure and keeps the prior content at the
live or backup path. -/
theorem save_backup_preserves_witness :
    sample_fs.live = some [("old.jpg", sample_record)] ∧
    ((save_metadata_to_file sample_fs [] .atRename).2 = false →
      (save_metadata_to_file sample_fs [] .atRename).1.live =
        some [("old.jpg", sample_record)] ∨
      (save_metadata_to_file sample_fs [] .atRename).1.backup =
        some [("old.jpg", sample_record)]) :=
  ⟨rfl, (save_backup_preserves sample_fs [] _ .atRename rfl).2⟩

end Store

namespace Engine

/-- C9: a valid query (at least two characters after trimming, positive
max_results if given, threshold within bounds if given) against an empty
corpus — a store with no records and an empty embedding cache, so the cache
stays empty through every refresh — returns the successful pair of the
empty result list and the query metadata with result count zero; no error
is raised and the matcher is never consulted. -/
theorem empty_corpus_returns_empty_list (cfg : Ranker.AppConfig)
    (embed : String → List ℚ)
    (matcher : List ℚ → List (String × List ℚ) →
      Except String (List (String × ℚ)))
    (file_exists : String → Bool) (st : EngineState) (query_text : String)
    (max_results : Option Int) (similarity_threshold : Option ℚ)
    (ranking_strategy : String) (apply_diversity : Bool)
    (hlen : 2 ≤ (strip query_text).length)
    (hmr : ∀ m, max_results = some m → 0 < m)
    (hth : ∀ t, similarity_threshold = some t → 0 ≤ t ∧ t ≤ 1)
    (hstore : st.store = []) (hcache : st.embedding_cache = []) :
    ∃ q, search cfg embed matcher file_exists st query_text max_results
        similarity_threshold ranking_strategy apply_diversity =
      .ok ([], q) ∧ q.text = query_text ∧ q.results_count = some 0 := by
  have htrim : ¬ strip query_text = "" := by
    intro h
    rw [h] at hlen
    simp at hlen
  have htext : ¬ query_text = "" := by
    intro h
    subst h
    exact htrim rfl
  have hmra : max_results.any (fun m => decide (m ≤ 0)) = false := by
    cases hm : max_results with
    | none => rfl
    | some m =>
      have := hmr m hm
      simp [Option.any]
      omega
  have htha : similarity_threshold.any (fun t =>
      decide (¬ (0 ≤ t ∧ t ≤ 1))) = false := by
    cases ht : similarity_threshold with
    | none => rfl
    | some t =>
      have := hth t ht
      simp [Option.any]
      exact this
  have hpq : ∃ nrm, process_query embed query_text =
      .ok ⟨query_text, embed nrm, none⟩ := by
    unfold process_query validate_and_normalize_query
    rw [if_neg htext, if_neg htrim, if_neg (by omega)]
    by_cases hlong : 200 < (strip query_text).length
    · exact ⟨(strip query_text).take 200, by rw [if_pos hlong]⟩
    · exact ⟨strip query_text, by rw [if_neg hlong]⟩
  obtain ⟨nrm, hpq⟩ := hpq
  have hre : (refresh_caches_if_needed st).embedding_cache = [] := by
    unfold refresh_caches_if_needed refresh_caches
    rw [if_pos (Or.inl hcache)]
    simp [hstore]
  have hst : (refresh_caches_if_needed st).store = [] := by
    unfold refresh_caches_if_needed refresh_caches
    split
    · exact hstore
    · exact hstore
  have hget : (get_cached_embeddings (refresh_caches_if_needed st)).1 = [] := by
    unfold get_cached_embeddings
    rw [if_pos hre]
    simp [refresh_caches, hst]
  refine ⟨⟨query_text, embed nrm, some 0⟩, ?_, rfl, rfl⟩
  unfold search
  rw [if_neg htrim, hmra, htha]
  simp only [Bool.false_eq_true, if_false]
  rw [hpq]
  simp [hget]

/-- Witness for C9: on a concrete empty store, searching for the text
castle succeeds with the empty result list and result count zero. -/
theorem empty_corpus_returns_empty_list_witness :
    2 ≤ (strip "castle").length ∧
    (∃ q, search ⟨5, 1/10⟩ (fun _ => [1]) (fun _ _ => .ok [])
        (fun _ => true) ⟨[], [], [], true⟩ "castle" none none
        "confidence" false =
      .ok ([], q) ∧ q.text = "castle" ∧ q.results_count = some 0) :=
  ⟨by decide,
    empty_corpus_returns_empty_list ⟨5, 1/10⟩ (fun _ => [1])
      (fun _ _ => .ok []) (fun _ => true) ⟨[], [], [], true⟩ "castle"
      none none "confidence" false (by decide)
      (fun m hm => by cases hm) (fun t ht => by cases ht) rfl rfl⟩

end Engine
